import Mathlib

/-!
Verification of `cli_to_automation.py`, a command-line client that sends
Huawei-device CLI command text to a remote parsing service and renders the
returned automation code lines.  The network transport itself is out of
scope; the pure logic of the program — payload construction, top-level
response validation, line extraction from the per-command result map,
rendering, and input collection — is embedded below and the documented
properties are proved about that embedding.

Conventions of the embedding:
* Python `dict.get(k)` yielding `None` for an absent key is modelled with
  `Option`; `dict.get(k, d)` is `Option.getD`.
* A JSON result entry is a record of the three fields the program reads
  (`status`, `output_lines`, `error_message`), each optional.
* Python `str.strip()` is `pyStrip` (strips the ASCII whitespace
  characters space, tab, LF, CR, VT, FF from both ends).
* Python `str.splitlines()` is `splitlines` (boundaries `\n`, `\r\n`,
  `\r`; a trailing terminator produces no extra empty line).
* Python `"\n".join(...)` is `String.intercalate "\n" ...`.
* Python `sorted(result.items())` sorts the key/entry pairs; since the
  keys of a dict are distinct, this is a sort by key alone, modelled with
  `List.insertionSort` on the key component under the code-point order on
  `String` (which matches Python's string comparison).
* Raising an exception is modelled with `Except.error` carrying the
  message string of the raised exception.
-/

/-- The ASCII whitespace characters stripped by Python `str.strip()`:
space, tab, newline, carriage return, vertical tab, form feed. -/
def isPySpace (c : Char) : Bool :=
  c == ' ' || c == '\t' || c == '\n' || c == '\r' ||
  c == Char.ofNat 11 || c == Char.ofNat 12

/-- Python `str.strip()`: remove leading and trailing whitespace. -/
def pyStrip (s : String) : String :=
  String.mk (((s.data.dropWhile isPySpace).reverse.dropWhile isPySpace).reverse)

/-- Character-list worker for `splitlines`: accumulate the current line in
`acc` (reversed) and cut at each line boundary. -/
def splitlinesAux : List Char → List Char → List (List Char)
  | [], acc => if acc.isEmpty then [] else [acc.reverse]
  | '\r' :: '\n' :: rest, acc => acc.reverse :: splitlinesAux rest []
  | '\n' :: rest, acc => acc.reverse :: splitlinesAux rest []
  | '\r' :: rest, acc => acc.reverse :: splitlinesAux rest []
  | c :: rest, acc => splitlinesAux rest (c :: acc)

/-- Python `str.splitlines()`: split at `\n`, `\r\n` or `\r`; a trailing
terminator does not contribute an empty final line. -/
def splitlines (s : String) : List String :=
  (splitlinesAux s.data []).map String.mk

/-- Python truth-value test of a string: nonempty means truthy. -/
def strTruthy (s : String) : Bool :=
  !s.data.isEmpty

/-- Python `s.startswith "#"`. -/
def startsWithHash (s : String) : Bool :=
  match s.data with
  | '#' :: _ => true
  | _ => false

/-- One entry of the response's `result` map, with the three fields
`extract_automation_lines` reads; every field may be absent. -/
structure ResultEntry where
  status : Option String
  output_lines : Option String
  error_message : Option String
deriving DecidableEq, Repr

/-- The parsed JSON response body, with the fields the program reads:
top-level `status`, top-level `message`, and the `result` map (modelled
as a key/entry association list; keys of a JSON object are distinct). -/
structure ApiResponse where
  status : Option String
  message : Option String
  result : Option (List (String × ResultEntry))
deriving DecidableEq, Repr

/-- The JSON request body built by `call_ddt_api` (lines 40-45). -/
structure Payload where
  applicable_products : List String
  block_clis : List String
deriving DecidableEq, Repr

/-- Request-body construction of `call_ddt_api` (lines 40-45): all CLI
commands are joined into one block with `\n` and sent as the single
element of `block_clis`. -/
def call_ddt_api_payload (cli_commands products : List String) : Payload :=
  { applicable_products := products
    block_clis := [String.intercalate "\n" cli_commands] }

/-- The spec's wording of the join (kept separate from the embedding's
`String.intercalate` so the two can be compared): the single string
obtained by concatenating all commands in order with `\n` separators. -/
def joinNewlineSpec : List String → String
  | [] => ""
  | [c] => c
  | c :: rest => c ++ "\n" ++ joinNewlineSpec rest

/-- Top-level status validation of `call_ddt_api` (lines 58-62): after
parsing the body, raise `ValueError` unless the top-level `status` field
equals `"SUCCESS"`; otherwise return the parsed body unchanged. -/
def call_ddt_api_validate (data : ApiResponse) : Except String ApiResponse :=
  if data.status ≠ some "SUCCESS" then
    Except.error ("API error: " ++ data.message.getD "Unknown error")
  else
    Except.ok data

/-- Per-entry processing of `extract_automation_lines` (lines 78-88): a
non-`SUCCESS` entry contributes one `# ERROR:` line; a `SUCCESS` entry
contributes its stripped, non-empty output lines in order. -/
def entryLines (entry : ResultEntry) : List String :=
  if entry.status ≠ some "SUCCESS" then
    ["# ERROR: " ++ entry.error_message.getD "Unknown error"]
  else
    let output := entry.output_lines.getD ""
    if strTruthy output then
      ((splitlines (pyStrip output)).map pyStrip).filter strTruthy
    else
      []

/-- Lexicographic code-point comparison of character lists, as Python
compares strings; proved below to agree with `≤` on `String`. -/
def strLeb : List Char → List Char → Bool
  | [], _ => true
  | _ :: _, [] => false
  | a :: as, b :: bs => if a < b then true else if b < a then false else strLeb as bs

/-- Key order used by `sorted(result.items())`: compare the string keys
(dict keys are distinct, so the entry component never decides). -/
def keyLE (p q : String × ResultEntry) : Prop :=
  strLeb p.1.data q.1.data = true

instance : DecidableRel keyLE :=
  fun p q => inferInstanceAs (Decidable (strLeb p.1.data q.1.data = true))

/-- Python `sorted(result.items())`, as a sort of the association list by
key under the code-point order on strings. -/
def sortEntries (l : List (String × ResultEntry)) : List (String × ResultEntry) :=
  l.insertionSort keyLE

/-- The function `extract_automation_lines` (lines 65-90): take the `result` map
(defaulting to empty), iterate its entries in sorted key order, and
concatenate the lines contributed by each entry. -/
def extract_automation_lines (api_response : ApiResponse) : List String :=
  ((sortEntries (api_response.result.getD [])).map (fun p => entryLines p.2)).flatten

/-- The function `generate_script` (lines 93-110): an empty line list renders to the
placeholder line, otherwise the lines are joined with `\n` and one
trailing `\n` is appended.  `products` and `cli_commands` are accepted
and ignored, as in the source. -/
def generate_script (automation_lines : List String)
    (products cli_commands : List String) : String :=
  if automation_lines.isEmpty then
    "# No automation lines generated\n"
  else
    String.intercalate "\n" automation_lines ++ "\n"

/-- The function `read_cli_from_file` (lines 113-132).  The filesystem is abstracted
to whether the path exists (`fileExists`) and, when it does, the text the
file holds (`content`).  A missing path raises `FileNotFoundError`;
otherwise each line is stripped and kept unless it is empty or starts
with `#`. -/
def read_cli_from_file (fileExists : Bool) (filepath content : String) :
    Except String (List String) :=
  if !fileExists then
    Except.error ("CLI file not found: " ++ filepath)
  else
    Except.ok (((splitlines content).map pyStrip).filter
      (fun s => strTruthy s && !startsWithHash s))

/-- Command gathering in `main` (lines 194-200): `--cli-file` (when given
and non-empty, matching Python's truthiness test on the path string)
reads the file; otherwise the `--cli` strings are used as-is; an empty
resulting list is a usage error. -/
def gather_commands (cli_file : Option String) (fileExists : Bool)
    (content : String) (cli : List String) : Except String (List String) :=
  match cli_file with
  | some fp =>
    if strTruthy fp then
      match read_cli_from_file fileExists fp content with
      | Except.error e => Except.error e
      | Except.ok cmds =>
        if cmds.isEmpty then Except.error "No CLI commands provided." else Except.ok cmds
    else
      if cli.isEmpty then Except.error "No CLI commands provided." else Except.ok cli
  | none =>
    if cli.isEmpty then Except.error "No CLI commands provided." else Except.ok cli

/-- The response-to-output stage of `main` (lines 58-62 inside
`call_ddt_api`, then lines 223-224): validation happens first, so a
non-`SUCCESS` body fails before any extraction; a valid body is extracted
and rendered. -/
def process_response (data : ApiResponse) (products cli_commands : List String) :
    Except String String :=
  match call_ddt_api_validate data with
  | Except.error e => Except.error e
  | Except.ok ok => Except.ok (generate_script (extract_automation_lines ok) products cli_commands)

/-!
Helper lemmas: the executable key comparison `strLeb` agrees with the
lexicographic order `≤` on `String`, which yields totality and
transitivity of `keyLE` and hence sortedness of `sortEntries`.
-/

/-- The comparison `strLeb` decides the negation of the reversed lexicographic strict
order on character lists. -/
theorem strLeb_iff_not_lex :
    ∀ as bs : List Char, strLeb as bs = true ↔ ¬ List.Lex (· < ·) bs as := by
  intro as
  induction as with
  | nil =>
    intro bs
    exact iff_of_true rfl (List.Lex.not_nil_right _ _)
  | cons a as ih =>
    intro bs
    cases bs with
    | nil =>
      apply iff_of_false
      · simp [strLeb]
      · intro h
        exact h List.Lex.nil
    | cons b bs =>
      rcases lt_trichotomy a b with hab | hab | hab
      · apply iff_of_true
        · simp [strLeb, hab]
        · intro h
          cases h with
          | cons h' => exact absurd hab (lt_irrefl _)
          | rel h' => exact absurd hab (asymm h')
      · subst hab
        have hirr : ¬ a < a := lt_irrefl a
        constructor
        · intro h hlex
          cases hlex with
          | cons h' => exact ((ih bs).mp (by simpa [strLeb, hirr] using h)) h'
          | rel h' => exact hirr h'
        · intro h
          simp only [strLeb, hirr, if_false]
          exact (ih bs).mpr fun hl => h (List.Lex.cons hl)
      · apply iff_of_false
        · simp [strLeb, hab, asymm hab]
        · intro h
          exact h (List.Lex.rel hab)

/-- The comparison `strLeb` on the underlying character lists is exactly `≤` on
`String`. -/
theorem strLeb_iff_le (s t : String) : strLeb s.data t.data = true ↔ s ≤ t := by
  rw [strLeb_iff_not_lex, String.le_iff_toList_le, ← not_lt]
  exact Iff.rfl

instance : IsTotal (String × ResultEntry) keyLE :=
  ⟨fun p q => by
    rcases le_total p.1 q.1 with h | h
    · exact Or.inl ((strLeb_iff_le _ _).mpr h)
    · exact Or.inr ((strLeb_iff_le _ _).mpr h)⟩

instance : IsTrans (String × ResultEntry) keyLE :=
  ⟨fun _ _ _ h1 h2 =>
    (strLeb_iff_le _ _).mpr
      (le_trans ((strLeb_iff_le _ _).mp h1) ((strLeb_iff_le _ _).mp h2))⟩

/-- A string is truthy in Python's sense exactly when it is not the
empty string. -/
theorem strTruthy_eq_true (s : String) : strTruthy s = true ↔ s ≠ "" := by
  constructor
  · intro h he
    subst he
    simp [strTruthy] at h
  · intro h
    cases s with
    | mk d =>
      cases d with
      | nil => exact absurd rfl h
      | cons c cs => simp [strTruthy]

/-- A string is falsy in Python's sense exactly when it is empty. -/
theorem strTruthy_eq_false (s : String) : strTruthy s = false ↔ s = "" := by
  rw [← Bool.not_eq_true, strTruthy_eq_true]
  simp

/-- Prepending a `x ++ "\n"` block to the head of a join associates. -/
theorem joinNewlineSpec_cons_append (x y : String) (as : List String) :
    joinNewlineSpec ((x ++ "\n" ++ y) :: as) = x ++ "\n" ++ joinNewlineSpec (y :: as) := by
  cases as with
  | nil => rfl
  | cons b bs => simp [joinNewlineSpec, String.append_assoc]

/-- The accumulator loop of `String.intercalate` computes the spec's
join with the accumulator prepended as a first command. -/
theorem intercalate_go_join (as : List String) :
    ∀ acc : String, String.intercalate.go acc "\n" as = joinNewlineSpec (acc :: as) := by
  induction as with
  | nil => intro acc; rfl
  | cons a as ih =>
    intro acc
    rw [String.intercalate.go, ih (acc ++ "\n" ++ a), joinNewlineSpec_cons_append]
    rfl

/-- The embedding's `String.intercalate "\n"` is exactly the spec's join. -/
theorem intercalate_eq_joinNewlineSpec (l : List String) :
    String.intercalate "\n" l = joinNewlineSpec l := by
  cases l with
  | nil => rfl
  | cons a as => rw [String.intercalate, intercalate_go_join]

/-- Whatever `read_cli_from_file` returns on an existing file is, in file
order, a sub-sequence of the stripped lines, and each kept command is
non-empty and does not start with `#`. -/
theorem read_cli_ok_props (filepath content : String) (cmds : List String)
    (h : read_cli_from_file true filepath content = Except.ok cmds) :
    cmds.Sublist ((splitlines content).map pyStrip)
    ∧ ∀ c ∈ cmds, c ≠ "" ∧ startsWithHash c = false := by
  have hc : cmds = ((splitlines content).map pyStrip).filter
      (fun s => strTruthy s && !startsWithHash s) := by
    simp [read_cli_from_file] at h
    exact h.symm
  subst hc
  refine ⟨List.filter_sublist _, fun c hc => ?_⟩
  obtain ⟨-, hpred⟩ := List.mem_filter.mp hc
  rw [Bool.and_eq_true] at hpred
  obtain ⟨h1, h2⟩ := hpred
  exact ⟨(strTruthy_eq_true c).mp h1, by simpa using h2⟩

/-!
Claim theorems.
-/

/-- C1: for every result entry whose `status` equals `"SUCCESS"`, the
extractor strips the whole `output_lines` blob, splits it into lines,
strips each line, drops lines that become empty and keeps the survivors
in order; on the result map
`{"a": {"status":"SUCCESS","output_lines":"  foo  \n\nbar\n"}}` it
yields exactly `["foo", "bar"]`. -/
theorem extract_success_entry_pipeline :
    (∀ e : ResultEntry, e.status = some "SUCCESS" →
      entryLines e =
        ((splitlines (pyStrip (e.output_lines.getD ""))).map pyStrip).filter strTruthy)
    ∧ extract_automation_lines
        { status := some "SUCCESS", message := none,
          result := some [("a",
            { status := some "SUCCESS", output_lines := some "  foo  \n\nbar\n",
              error_message := none })] }
      = ["foo", "bar"] := by
  constructor
  · intro e he
    by_cases h : strTruthy (e.output_lines.getD "") = true
    · simp [entryLines, he, h]
    · have hzero : e.output_lines.getD "" = "" :=
        (strTruthy_eq_false _).mp (Bool.not_eq_true _ ▸ h)
      have hL : entryLines e = [] := by simp [entryLines, he, h]
      have hR : ((splitlines (pyStrip (e.output_lines.getD ""))).map pyStrip).filter
          strTruthy = [] := by
        rw [hzero]
        rfl
      rw [hL, hR]
  · rfl

/-- Witness for C1 at the claim's concrete entry. -/
theorem extract_success_entry_pipeline_witness :
    entryLines { status := some "SUCCESS",
                 output_lines := some "  foo  \n\nbar\n",
                 error_message := none } =
      ((splitlines (pyStrip ((some "  foo  \n\nbar\n").getD ""))).map pyStrip).filter
        strTruthy :=
  extract_success_entry_pipeline.1
    { status := some "SUCCESS",
      output_lines := some "  foo  \n\nbar\n",
      error_message := none } rfl

/-- C2: for every result entry whose `status` is not `"SUCCESS"`, the
extractor emits the single line `# ERROR: <error_message>`, defaulting
the message to `"Unknown error"` when the field is absent; the result
map `{"a": {"status":"FAIL","error_message":"bad syntax"}}` extracts to
`["# ERROR: bad syntax"]`. -/
theorem extract_error_entry_line :
    (∀ e : ResultEntry, e.status ≠ some "SUCCESS" →
      entryLines e = ["# ERROR: " ++ e.error_message.getD "Unknown error"])
    ∧ extract_automation_lines
        { status := some "SUCCESS", message := none,
          result := some [("a",
            { status := some "FAIL", output_lines := none,
              error_message := some "bad syntax" })] }
      = ["# ERROR: bad syntax"] := by
  constructor
  · intro e he
    simp [entryLines, he]
  · rfl

/-- Witness for C2 at the claim's concrete entry. -/
theorem extract_error_entry_line_witness :
    entryLines { status := some "FAIL",
                 output_lines := none,
                 error_message := some "bad syntax" } =
      ["# ERROR: " ++ (some "bad syntax").getD "Unknown error"] :=
  extract_error_entry_line.1
    { status := some "FAIL", output_lines := none, error_message := some "bad syntax" }
    (by simp)

/-- C3: the extractor visits the result entries in ascending
lexicographic (plain string) order of their keys — the sorted entry list
is a permutation of the map with keys sorted under `≤` on `String` — and
the flat output is the concatenation of the per-entry lines in that
order; entries keyed `"2"`, `"1"`, `"10"` are processed in the order
`"1"`, `"10"`, `"2"`. -/
theorem extract_sorted_key_order :
    (∀ l : List (String × ResultEntry),
        ((sortEntries l).map Prod.fst).Sorted (· ≤ ·) ∧ (sortEntries l).Perm l)
    ∧ (∀ resp : ApiResponse,
        extract_automation_lines resp =
          ((sortEntries (resp.result.getD [])).map (fun p => entryLines p.2)).flatten)
    ∧ extract_automation_lines
        { status := some "SUCCESS", message := none,
          result := some
            [("2", { status := some "SUCCESS",
                     output_lines := some "two",
                     error_message := none }),
             ("1", { status := some "SUCCESS",
                     output_lines := some "one\nuno",
                     error_message := none }),
             ("10", { status := some "SUCCESS",
                      output_lines := some "ten",
                      error_message := none })] }
      = ["one", "uno", "ten", "two"] := by
  refine ⟨fun l => ⟨?_, List.perm_insertionSort keyLE l⟩, fun resp => rfl, by rfl⟩
  have h2 : List.Pairwise (fun p q : String × ResultEntry => p.1 ≤ q.1) (sortEntries l) :=
    (List.sorted_insertionSort keyLE l).imp fun hpq => (strLeb_iff_le _ _).mp hpq
  exact List.pairwise_map.mpr h2

/-- C4: the renderer returns the placeholder line exactly when the line
list is empty, and otherwise the lines joined with `\n` plus one
trailing `\n`; `["a","b"]` renders to `"a\nb\n"`. -/
theorem generate_script_render :
    (∀ products cli_commands : List String,
      generate_script [] products cli_commands = "# No automation lines generated\n")
    ∧ (∀ lines products cli_commands : List String, lines ≠ [] →
        generate_script lines products cli_commands =
          String.intercalate "\n" lines ++ "\n")
    ∧ generate_script ["a", "b"] [] [] = "a\nb\n" := by
  refine ⟨fun _ _ => rfl, fun lines p c h => ?_, rfl⟩
  simp [generate_script, h]

/-- Witness for C4's non-empty case at a concrete line list. -/
theorem generate_script_render_witness :
    generate_script ["a", "b"] ["USG6000F"] ["display this"] =
      String.intercalate "\n" ["a", "b"] ++ "\n" :=
  generate_script_render.2.1 ["a", "b"] ["USG6000F"] ["display this"] (by simp)

/-- C5: the validation step of `call_ddt_api` fails exactly when the
top-level `status` field differs from `"SUCCESS"`, the raised message is
built from the body's `message` field (defaulting to `"Unknown error"`),
and the failure happens before extraction: the whole response pipeline
returns that error without extracting anything. -/
theorem api_status_validation :
    (∀ data : ApiResponse,
        call_ddt_api_validate data =
            Except.error ("API error: " ++ data.message.getD "Unknown error") ↔
          data.status ≠ some "SUCCESS")
    ∧ (∀ data : ApiResponse, ∀ products cli_commands : List String,
        data.status ≠ some "SUCCESS" →
          process_response data products cli_commands =
            Except.error ("API error: " ++ data.message.getD "Unknown error")) := by
  constructor
  · intro data
    constructor
    · intro he hs
      simp [call_ddt_api_validate, hs] at he
    · intro hs
      simp [call_ddt_api_validate, hs]
  · intro data products cli h
    simp [process_response, call_ddt_api_validate, h]

/-- Witness for C5 at a concrete failing response. -/
theorem api_status_validation_witness :
    call_ddt_api_validate
        { status := some "FAIL", message := some "boom", result := none } =
      Except.error ("API error: " ++ (some "boom").getD "Unknown error")
    ∧ process_response
        { status := some "FAIL", message := some "boom",
          result := some [("a",
            { status := some "SUCCESS",
              output_lines := some "x",
              error_message := none })] } [] []
      = Except.error ("API error: " ++ (some "boom").getD "Unknown error") :=
  ⟨(api_status_validation.1 _).mpr (by simp),
   api_status_validation.2 _ [] [] (by simp)⟩

/-- C6: on an existing file, the file mode splits the text into lines,
strips each line, drops lines that become empty or start with `#`, and
keeps the rest in file order; the file with lines
`["display this", "", "# comment", "system-view"]` yields
`["display this", "system-view"]`. -/
theorem read_cli_file_filters :
    (∀ filepath content : String,
        read_cli_from_file true filepath content =
          Except.ok (((splitlines content).map pyStrip).filter
            (fun s => strTruthy s && !startsWithHash s)))
    ∧ (∀ filepath content : String, ∀ cmds : List String,
        read_cli_from_file true filepath content = Except.ok cmds →
          cmds.Sublist ((splitlines content).map pyStrip)
          ∧ ∀ c ∈ cmds, c ≠ "" ∧ startsWithHash c = false)
    ∧ read_cli_from_file true "commands.txt" "display this\n\n# comment\nsystem-view"
      = Except.ok ["display this", "system-view"] :=
  ⟨fun _ _ => rfl, read_cli_ok_props, rfl⟩

/-- Witness for C6 at the claim's concrete file content. -/
theorem read_cli_file_filters_witness :
    (["display this", "system-view"] : List String).Sublist
        ((splitlines "display this\n\n# comment\nsystem-view").map pyStrip)
    ∧ ("display this" ≠ "" ∧ startsWithHash "display this" = false) :=
  ⟨(read_cli_file_filters.2.1 "commands.txt" "display this\n\n# comment\nsystem-view"
      ["display this", "system-view"] rfl).1,
   (read_cli_file_filters.2.1 "commands.txt" "display this\n\n# comment\nsystem-view"
      ["display this", "system-view"] rfl).2 "display this" (by simp)⟩

/-- C7: the request body is
`{"applicable_products": products, "block_clis": [joined]}` where
`joined` is the commands concatenated in order with `\n` separators, and
`block_clis` has exactly one element. -/
theorem payload_single_joined_block :
    ∀ cli_commands products : List String,
      call_ddt_api_payload cli_commands products =
        { applicable_products := products
          block_clis := [joinNewlineSpec cli_commands] }
      ∧ (call_ddt_api_payload cli_commands products).block_clis.length = 1 := by
  intro cli products
  refine ⟨?_, rfl⟩
  simp [call_ddt_api_payload, intercalate_eq_joinNewlineSpec]

/-- C8 fails as stated: in direct mode an empty string passes through the
collector, so the gathered commands can contain an empty entry (`main`
only rejects an empty command list, not empty members). -/
theorem gather_direct_keeps_empty_cex :
    gather_commands none true "" [""] = Except.ok [""]
    ∧ "" ∈ ([""] : List String) :=
  ⟨rfl, by simp⟩

/-- C8 (amended): direct mode returns the provided strings unchanged and
in order (hence contains no empty entries only when the provided strings
are themselves non-empty), while file mode preserves file order and never
produces an empty entry. -/
theorem gather_preserves_order_no_empty (cli : List String) (h : cli ≠ []) :
    gather_commands none true "" cli = Except.ok cli
    ∧ ∀ filepath content : String, ∀ cmds : List String,
        gather_commands (some filepath) true content [] = Except.ok cmds →
          cmds.Sublist ((splitlines content).map pyStrip) ∧ ∀ c ∈ cmds, c ≠ "" := by
  constructor
  · simp [gather_commands, h]
  · intro fp content cmds hok
    by_cases hfp : strTruthy fp = true
    · cases hread : read_cli_from_file true fp content with
      | error e => simp [gather_commands, hfp, hread] at hok
      | ok L =>
        simp only [gather_commands, hfp, if_true, hread] at hok
        by_cases hL : L.isEmpty
        · simp [hL] at hok
        · simp [hL] at hok
          have hprops := read_cli_ok_props fp content cmds (hok ▸ hread)
          exact ⟨hprops.1, fun c hc => (hprops.2 c hc).1⟩
    · simp [gather_commands, hfp] at hok

/-- Witness for C8 (amended) at concrete direct and file inputs. -/
theorem gather_preserves_order_no_empty_witness :
    gather_commands none true "" ["display ospf peer"] = Except.ok ["display ospf peer"]
    ∧ (["a"] : List String).Sublist ((splitlines "a\n# b").map pyStrip)
    ∧ "a" ≠ "" :=
  ⟨(gather_preserves_order_no_empty ["display ospf peer"] (by simp)).1,
   ((gather_preserves_order_no_empty ["display ospf peer"] (by simp)).2
      "cmds.txt" "a\n# b" ["a"] rfl).1,
   ((gather_preserves_order_no_empty ["display ospf peer"] (by simp)).2
      "cmds.txt" "a\n# b" ["a"] rfl).2 "a" (by simp)⟩

/-- C9: file mode on a non-existing path fails with the file-not-found
error and returns no command sequence. -/
theorem read_cli_missing_file :
    ∀ filepath content : String,
      read_cli_from_file false filepath content =
        Except.error ("CLI file not found: " ++ filepath) :=
  fun _ _ => rfl

/-- C10: a response that passes top-level validation but has no `result`
field, or an empty result map, extracts to the empty sequence without
error, and the rendered output is exactly the placeholder line. -/
theorem empty_result_renders_placeholder (resp : ApiResponse)
    (hs : resp.status = some "SUCCESS")
    (hr : resp.result = none ∨ resp.result = some []) :
    extract_automation_lines resp = []
    ∧ ∀ products cli_commands : List String,
        process_response resp products cli_commands =
          Except.ok "# No automation lines generated\n" := by
  have hempty : extract_automation_lines resp = [] := by
    rcases hr with h | h <;>
      simp [extract_automation_lines, h, sortEntries, List.insertionSort]
  refine ⟨hempty, fun products cli => ?_⟩
  simp [process_response, call_ddt_api_validate, hs, generate_script, hempty]

/-- Witness for C10 at a concrete response without a `result` field. -/
theorem empty_result_renders_placeholder_witness :
    extract_automation_lines
        { status := some "SUCCESS", message := none, result := none } = []
    ∧ process_response { status := some "SUCCESS", message := none, result := none }
        ["USG6000F"] ["display this"] = Except.ok "# No automation lines generated\n" :=
  ⟨(empty_result_renders_placeholder _ rfl (Or.inl rfl)).1,
   (empty_result_renders_placeholder _ rfl (Or.inl rfl)).2 ["USG6000F"] ["display this"]⟩
